import Mathlib

/-
  Verification development for the pg_sentinel / pg_ipm PostgreSQL module
  (src/pg_ipm.c).  The module installs an ExecutorRun hook that reimplements
  the executor main loop (ExecutePlan): for every tuple of a SELECT whose
  origin table oid equals the configured relation oid, the int32 attribute at
  the configured 1-based column position is perturbed in place by a
  pseudorandom delta drawn from rand() modulo 11 minus 5.

  Shallow embedding conventions:
  - A tuple table slot is a Row: its tts_tableOid, its tts_values array
    (each datum holding a signed 32-bit value, modeled as Int), and its
    tts_isnull array.
  - The C rand() stream is an arbitrary function rands : Nat -> Nat together
    with a running index; srand(time(NULL)) seeding is abstracted into the
    choice of the stream, and the single discarded rand() call before the
    loop is modeled by starting the index at 1.
  - int32 arithmetic wraps: toInt32 reduces an Int modulo 2^32 into
    [-2^31, 2^31).  DatumGetInt32 is toInt32; Int32GetDatum stores the
    already reduced value unchanged.
  - The producer (repeated ExecProcNode calls until TupIsNull) is a finite
    list of rows; ExecShutdownNode calls are counted; the consumer
    (dest->receiveSlot) is a Bool valued function on rows.
  - EnterParallelMode / ExitParallelMode, es_direction, per-tuple expression
    context resets and memory context switches are executor mechanics with no
    effect on the observables modeled here and are not represented.
-/

namespace PgSentinel

/-- Command type of the statement being run; only CMD_SELECT is treated
specially by the code. -/
inductive CmdType
  | select
  | insert
  | update
  | delete
  deriving DecidableEq

/-- A tuple table slot: origin table oid (tts_tableOid), datum array
(tts_values, each datum read as int32) and null flags (tts_isnull). -/
structure Row where
  tableOid : Nat
  values : List Int
  isnull : List Bool
  deriving DecidableEq

/-- The two module GUCs from _PG_init: pg_sentinel.relation_oid and
pg_sentinel.column_no, both integer with default 0 and range 0..INT_MAX. -/
structure Config where
  relation_oid : Nat
  col_no : Nat
  deriving DecidableEq

/-- Reduction of an Int into the signed 32-bit range [-2^31, 2^31), the
wraparound semantics of storing into an int32 variable. -/
def toInt32 (n : Int) : Int :=
  (n + 2147483648) % 4294967296 - 2147483648

/-- Severity chosen once in _PG_init from abort_statement_only: ERROR aborts
the statement, FATAL the session.  The C code computes elevel but contains no
ereport call that would ever use it. -/
inductive Elevel
  | ERROR
  | FATAL
  deriving DecidableEq

/-- Lines 219-226 of _PG_init: elevel := ERROR when abort_statement_only,
FATAL otherwise. -/
def init_elevel (abort_statement_only : Bool) : Elevel :=
  if abort_statement_only then Elevel.ERROR else Elevel.FATAL

/-- ExecFilterJunk application: when a junk filter is installed the pulled
slot is replaced by the projected one (the projection itself is an external
collaborator, modeled as an arbitrary function). -/
def junkApply (junkFilter : Option (Row → Row)) (slot : Row) : Row :=
  match junkFilter with
  | some f => f slot
  | none => slot

/-- Lines 125-137 of ExecutePlan, the body of
if ( slot tableOid equals relation_oid ): slot_getattr reads the datum at the
1-based column (the values entry at col_no - 1, with the isnull output
parameter fetched but never inspected by the code), DatumGetInt32 reduces it
to int32, the value is incremented by rand() % (5 - (-5) + 1) + (-5) in
int32 arithmetic, and Int32GetDatum of the result is stored back into
tts_values at col_no - 1. -/
def selectTamper (cfg : Config) (r : Nat) (slot : Row) : Row :=
  { slot with
      values := slot.values.set (cfg.col_no - 1)
        (toInt32 (toInt32 (slot.values.getD (cfg.col_no - 1) 0)
          + ((r : Int) % 11 + (-5)))) }

/-- Result of the CMD_SELECT block of ExecutePlan for one slot: the possibly
modified slot, the updated es_processed counter, and whether one rand() value
was consumed. -/
structure StepOut where
  outSlot : Row
  outProc : Nat
  usedRand : Bool
  deriving DecidableEq

/-- Lines 123-141 of ExecutePlan: inside if (operation == CMD_SELECT), a slot
whose tts_tableOid equals relation_oid is perturbed (consuming one rand()
value), every slot increments es_processed; for other operations nothing
happens here. -/
def tamperStep (cfg : Config) (operation : CmdType) (r : Nat) (slot : Row)
    (proc : Nat) : StepOut :=
  if operation = CmdType.select then
    if slot.tableOid = cfg.relation_oid then
      { outSlot := selectTamper cfg r slot, outProc := proc + 1, usedRand := true }
    else
      { outSlot := slot, outProc := proc + 1, usedRand := false }
  else
    { outSlot := slot, outProc := proc, usedRand := false }

/-- Reason the for loop of ExecutePlan ended: producer exhausted (TupIsNull),
consumer declined a slot (receiveSlot returned false), or the supplied tuple
count was reached. -/
inductive ExitReason
  | exhausted
  | consumerClosed
  | quotaReached
  deriving DecidableEq

/-- Observables of one run of the for loop of ExecutePlan: the slots passed
to dest receiveSlot, the final es_processed, the number of ExecShutdownNode
calls made inside the loop, why the loop ended, and the index of the next
unconsumed rand() value. -/
structure LoopResult where
  sent : List Row
  processed : Nat
  innerShutdowns : Nat
  exitReason : ExitReason
  nextRand : Nat
  deriving DecidableEq

/-- Lines 86-167 of ExecutePlan, the for loop.  Arguments after the fixed
parameters: remaining producer output, rand() stream index,
current_tuple_count so far, es_processed so far.
On TupIsNull: one ExecShutdownNode call and normal exit.  Otherwise the junk
filter is applied, the CMD_SELECT block runs (tamperStep), then if sendTuples
the slot goes to receiveSlot and a false reply ends the loop; finally
current_tuple_count is incremented and compared against a nonzero
numberTuples. -/
def execLoop (cfg : Config) (operation : CmdType) (sendTuples : Bool)
    (numberTuples : Nat) (junkFilter : Option (Row → Row))
    (receiveSlot : Row → Bool) (rands : Nat → Nat) :
    List Row → Nat → Nat → Nat → LoopResult
  | [], k, _cnt, proc =>
      { sent := [], processed := proc, innerShutdowns := 1,
        exitReason := ExitReason.exhausted, nextRand := k }
  | slot0 :: rest, k, cnt, proc =>
      let s := tamperStep cfg operation (rands k) (junkApply junkFilter slot0) proc
      let k2 := if s.usedRand then k + 1 else k
      if sendTuples && !(receiveSlot s.outSlot) then
        { sent := [s.outSlot], processed := s.outProc, innerShutdowns := 0,
          exitReason := ExitReason.consumerClosed, nextRand := k2 }
      else if numberTuples ≠ 0 ∧ numberTuples = cnt + 1 then
        { sent := if sendTuples then [s.outSlot] else [], processed := s.outProc,
          innerShutdowns := 0, exitReason := ExitReason.quotaReached, nextRand := k2 }
      else
        let r := execLoop cfg operation sendTuples numberTuples junkFilter
          receiveSlot rands rest k2 (cnt + 1) s.outProc
        { sent := (if sendTuples then [s.outSlot] else []) ++ r.sent,
          processed := r.processed, innerShutdowns := r.innerShutdowns,
          exitReason := r.exitReason, nextRand := r.nextRand }

/-- Observables of ExecutePlan: as LoopResult, with shutdowns the total
number of ExecShutdownNode calls (inside the loop plus the one after it). -/
structure PlanResult where
  sent : List Row
  processed : Nat
  shutdowns : Nat
  exitReason : ExitReason
  nextRand : Nat
  deriving DecidableEq

/-- Lines 39-178, ExecutePlan: srand plus one discarded rand() call (the
stream index starts at 1), the for loop starting with current_tuple_count 0
and the es_processed value handed in by the caller, and after the loop one
more ExecShutdownNode call unless EXEC_FLAG_BACKWARD is set in
es_top_eflags. -/
def ExecutePlan (cfg : Config) (backwardFlag : Bool) (operation : CmdType)
    (sendTuples : Bool) (numberTuples : Nat) (junkFilter : Option (Row → Row))
    (receiveSlot : Row → Bool) (rands : Nat → Nat) (proc0 : Nat)
    (planRows : List Row) : PlanResult :=
  let r := execLoop cfg operation sendTuples numberTuples junkFilter receiveSlot
    rands planRows 1 0 proc0
  { sent := r.sent, processed := r.processed,
    shutdowns := r.innerShutdowns + (if backwardFlag then 0 else 1),
    exitReason := r.exitReason, nextRand := r.nextRand }

/-- Scan direction handed to the hook; the code only tests
ScanDirectionIsNoMovement. -/
inductive ScanDirection
  | forwardScan
  | backwardScan
  | noMovement
  deriving DecidableEq

/-- The parts of the QueryDesc (and its EState) that sentinel_ExecutorRun
reads: the EXPLAIN_ONLY and BACKWARD eflags, the operation, hasReturning from
the planned statement, whether totaltime instrumentation is attached, the
junk filter, the tuple stream the plan produces, and the receiveSlot callback
of the DestReceiver. -/
structure QueryDesc where
  explainOnly : Bool
  backwardFlag : Bool
  operation : CmdType
  hasReturning : Bool
  hasTotaltime : Bool
  junkFilter : Option (Row → Row)
  planRows : List Row
  receiveSlot : Row → Bool

/-- Calls the hook makes on its collaborators, in order: instrumentation
start and stop (InstrStartNode / InstrStopNode), consumer startup and
shutdown (rStartup / rShutdown), and a marker for delegating to a previously
installed ExecutorRun hook, which the code never does. -/
inductive HookEvent
  | instrStart
  | consumerStartup
  | consumerShutdown
  | instrStop
  | prevHookDelegate
  deriving DecidableEq

/-- Observables of one sentinel_ExecutorRun call: the ordered collaborator
calls, the slots sent to the consumer, the final es_processed, and the number
of ExecShutdownNode calls. -/
structure HookResult where
  events : List HookEvent
  sent : List Row
  es_processed : Nat
  shutdowns : Nat
  deriving DecidableEq

/-- Type of an installed ExecutorRun hook, as seen by this module. -/
abbrev ExecutorRunHook : Type :=
  QueryDesc → ScanDirection → Nat → (Nat → Nat) → Except String HookResult

/-- Lines 239-306, sentinel_ExecutorRun.  The assertion that
EXEC_FLAG_EXPLAIN_ONLY is clear is modeled as an error return (an
assert-enabled build stops here before anything else runs).  Then:
InstrStartNode when totaltime is attached, es_processed := 0, sendTuples :=
(operation == CMD_SELECT or hasReturning), rStartup when sendTuples,
ExecutePlan unless the direction is NoMovement, rShutdown when sendTuples,
InstrStopNode when totaltime is attached.  The saved
prev_ExecutorRun_hook is a parameter here because the C reads a module-level
variable; the body never invokes it. -/
def sentinel_ExecutorRun (cfg : Config)
    (prev_ExecutorRun_hook : Option ExecutorRunHook)
    (queryDesc : QueryDesc) (direction : ScanDirection) (count : Nat)
    (rands : Nat → Nat) : Except String HookResult :=
  if queryDesc.explainOnly then
    Except.error "EXEC_FLAG_EXPLAIN_ONLY set"
  else
    let sendTuples : Bool :=
      (queryDesc.operation == CmdType.select) || queryDesc.hasReturning
    let planResult : Option PlanResult :=
      if ¬ (direction = ScanDirection.noMovement) then
        some (ExecutePlan cfg queryDesc.backwardFlag queryDesc.operation
          sendTuples count queryDesc.junkFilter queryDesc.receiveSlot rands 0
          queryDesc.planRows)
      else none
    Except.ok
      { events :=
          (if queryDesc.hasTotaltime then [HookEvent.instrStart] else [])
            ++ (if sendTuples then [HookEvent.consumerStartup] else [])
            ++ (if sendTuples then [HookEvent.consumerShutdown] else [])
            ++ (if queryDesc.hasTotaltime then [HookEvent.instrStop] else []),
        sent := match planResult with
          | some r => r.sent
          | none => [],
        es_processed := match planResult with
          | some r => r.processed
          | none => 0,
        shutdowns := match planResult with
          | some r => r.shutdowns
          | none => 0 }

/-- Events of a hook invocation, with the rejected (assertion failed) case
contributing none. -/
def hookEvents : Except String HookResult → List HookEvent
  | Except.ok h => h.events
  | Except.error _ => []

/-- Slots a hook invocation sent to the consumer, with the rejected case
contributing none. -/
def hookSent : Except String HookResult → List Row
  | Except.ok h => h.sent
  | Except.error _ => []

/-- Lines 215-217 of _PG_init: the previously installed ExecutorRun hook is
saved into prev_ExecutorRun_hook and the hook slot is overwritten with
sentinel_ExecutorRun.  Returns (new hook slot, saved previous hook). -/
def PG_init_hooks {H : Type} (installed : Option H) (sentinel : H) :
    H × Option H :=
  (sentinel, installed)

/-- Lines 232-237, _PG_fini: the hook slot is restored from
prev_ExecutorRun_hook. -/
def PG_fini_hooks {H : Type} (saved : Option H) : Option H :=
  saved

/-- Reading back an entry of a list just overwritten at that index yields the
written value. -/
theorem getD_set_self (l : List Int) (i : Nat) (x : Int) (h : i < l.length) :
    (l.set i x).getD i 0 = x := by
  induction l generalizing i with
  | nil => simp at h
  | cons a t ih =>
    cases i with
    | zero => simp
    | succ j => simpa using ih j (by simpa using h)

/-- Overwriting one entry of a list leaves every other index unchanged. -/
theorem getD_set_other (l : List Int) (i j : Nat) (x : Int) (h : j ≠ i) :
    (l.set i x).getD j 0 = l.getD j 0 := by
  induction l generalizing i j with
  | nil => simp
  | cons a t ih =>
    cases i with
    | zero =>
      cases j with
      | zero => exact absurd rfl h
      | succ m => simp
    | succ n =>
      cases j with
      | zero => simp
      | succ m => simpa using ih n m (fun hc => h (by rw [hc]))

/-- Values already inside the signed 32-bit range are fixed points of the
wraparound reduction. -/
theorem toInt32_eq_self (x : Int) (hlo : -2147483648 ≤ x) (hhi : x < 2147483648) :
    toInt32 x = x := by
  unfold toInt32
  rw [Int.emod_eq_of_lt (by linarith) (by linarith)]
  ring

/-- The perturbation delta rand() % 11 + (-5) always lies in [-5, 5]. -/
theorem delta_bounds (r : Nat) :
    -5 ≤ (r : Int) % 11 + (-5) ∧ (r : Int) % 11 + (-5) ≤ 5 := by
  have h1 : (0 : Int) ≤ (r : Int) % 11 := Int.emod_nonneg _ (by norm_num)
  have h2 : ((r : Int) % 11) < 11 := Int.emod_lt_of_pos _ (by norm_num)
  exact ⟨by linarith, by linarith⟩

/-- A slot whose origin table differs from the configured oid passes the
CMD_SELECT block untouched, with the counter incremented and no rand() call. -/
theorem tamperStep_nonmatching (cfg : Config) (r : Nat) (slot : Row) (proc : Nat)
    (h : slot.tableOid ≠ cfg.relation_oid) :
    tamperStep cfg CmdType.select r slot proc =
      { outSlot := slot, outProc := proc + 1, usedRand := false } := by
  simp [tamperStep, h]

/-- The loop makes its single inner ExecShutdownNode call exactly on the
producer-exhaustion exit and on no other exit. -/
theorem execLoop_innerShutdowns (cfg : Config) (operation : CmdType)
    (sendTuples : Bool) (numberTuples : Nat) (junkFilter : Option (Row → Row))
    (receiveSlot : Row → Bool) (rands : Nat → Nat) (rows : List Row) :
    ∀ (k cnt proc : Nat),
      (execLoop cfg operation sendTuples numberTuples junkFilter receiveSlot
          rands rows k cnt proc).innerShutdowns =
        if (execLoop cfg operation sendTuples numberTuples junkFilter receiveSlot
            rands rows k cnt proc).exitReason = ExitReason.exhausted
        then 1 else 0 := by
  induction rows with
  | nil => intro k cnt proc; simp [execLoop]
  | cons slot0 rest ih =>
    intro k cnt proc
    simp only [execLoop]
    split
    · simp
    · split
      · simp
      · exact ih _ (cnt + 1) _

/-- When every row misses the monitored relation, the loop with no quota and
an always-accepting consumer is a pure pass-through: all rows are forwarded
unchanged, the counter advances by the number of rows, the loop ends by
exhaustion with one inner shutdown, and no pseudorandom value is consumed. -/
theorem execLoop_passthrough (cfg : Config) (receiveSlot : Row → Bool)
    (rands : Nat → Nat) (hrecv : ∀ row, receiveSlot row = true)
    (rows : List Row) :
    ∀ (k cnt proc : Nat), (∀ row ∈ rows, row.tableOid ≠ cfg.relation_oid) →
      execLoop cfg CmdType.select true 0 none receiveSlot rands rows k cnt proc =
        { sent := rows, processed := proc + rows.length, innerShutdowns := 1,
          exitReason := ExitReason.exhausted, nextRand := k } := by
  induction rows with
  | nil => intro k cnt proc _; simp [execLoop]
  | cons slot0 rest ih =>
    intro k cnt proc h
    have h0 : slot0.tableOid ≠ cfg.relation_oid := h slot0 (by simp)
    have hr : ∀ row ∈ rest, row.tableOid ≠ cfg.relation_oid :=
      fun row hrow => h row (by simp [hrow])
    simp only [execLoop, junkApply,
      tamperStep_nonmatching cfg (rands k) slot0 proc h0]
    simp only [hrecv slot0, Bool.not_true, Bool.and_false, Bool.false_eq_true,
      if_false, ne_eq, not_true_eq_false, false_and, Bool.false_eq_true]
    simp only [ih k (cnt + 1) (proc + 1) hr]
    simp [LoopResult.mk.injEq]
    omega

/-- With a nonzero quota, an always-accepting consumer and at least as many
producer rows as the quota demands, the loop sends exactly the missing number
of rows and exits through the quota branch. -/
theorem execLoop_quota (cfg : Config) (operation : CmdType) (numberTuples : Nat)
    (junkFilter : Option (Row → Row)) (receiveSlot : Row → Bool)
    (rands : Nat → Nat) (hq : numberTuples ≠ 0)
    (hrecv : ∀ row, receiveSlot row = true) (rows : List Row) :
    ∀ (k cnt proc : Nat), cnt < numberTuples →
      numberTuples - cnt ≤ rows.length →
      (execLoop cfg operation true numberTuples junkFilter receiveSlot rands
          rows k cnt proc).sent.length = numberTuples - cnt
      ∧ (execLoop cfg operation true numberTuples junkFilter receiveSlot rands
          rows k cnt proc).exitReason = ExitReason.quotaReached := by
  induction rows with
  | nil =>
    intro k cnt proc h1 h2
    simp only [List.length_nil, Nat.le_zero] at h2
    omega
  | cons slot0 rest ih =>
    intro k cnt proc h1 h2
    simp only [execLoop]
    simp only [hrecv, Bool.not_true, Bool.and_false, Bool.false_eq_true, if_false]
    by_cases hc : numberTuples = cnt + 1
    · rw [if_pos ⟨hq, hc⟩]
      constructor
      · simp; omega
      · rfl
    · rw [if_neg (fun hx => hc hx.2)]
      have h1a : cnt + 1 < numberTuples := by omega
      have h2a : numberTuples - (cnt + 1) ≤ rest.length := by
        simp only [List.length_cons] at h2; omega
      have hrec := ih
        (if (tamperStep cfg operation (rands k) (junkApply junkFilter slot0)
            proc).usedRand then k + 1 else k)
        (cnt + 1)
        (tamperStep cfg operation (rands k) (junkApply junkFilter slot0)
          proc).outProc
        h1a h2a
      constructor
      · simp only [List.length_append]
        rw [hrec.1]
        simp
        omega
      · exact hrec.2

/-- C1 (code bug evaluation): the severity is indeed fixed at initialization
(abort_statement_only false gives FATAL), but the Tamper Loop contains no
abort path at all: with relation oid 17 and column 1, a SELECT producing two
rows of relation 17 has both rows pulled, perturbed and forwarded, the
counter reaches 2, and the loop ends by ordinary producer exhaustion instead
of any fatal termination at the first match. -/
theorem c1_no_abort_in_code :
    init_elevel false = Elevel.FATAL
    ∧ (ExecutePlan ⟨17, 1⟩ false CmdType.select true 0 none (fun _ => true)
        (fun _ => 6) 0 [⟨17, [100], [false]⟩, ⟨17, [200], [false]⟩]) =
      { sent := [⟨17, [101], [false]⟩, ⟨17, [201], [false]⟩], processed := 2,
        shutdowns := 2, exitReason := ExitReason.exhausted, nextRand := 3 } := by
  constructor
  · rfl
  · decide

/-- C2 counterexample: a matched row whose monitored attribute is null (null
flag set, datum zero as deformation leaves it) is not forwarded unchanged:
with delta 1 the forwarded row carries 1 in its values slot, so the slot was
written and the row differs from the input. -/
theorem c2_counterexample_null_row_changed :
    (ExecutePlan ⟨17, 1⟩ false CmdType.select true 0 none (fun _ => true)
      (fun _ => 6) 0 [⟨17, [0], [true]⟩]).sent = [⟨17, [1], [true]⟩]
    ∧ (ExecutePlan ⟨17, 1⟩ false CmdType.select true 0 none (fun _ => true)
      (fun _ => 6) 0 [⟨17, [0], [true]⟩]).sent ≠ [⟨17, [0], [true]⟩] := by
  constructor
  · decide
  · decide

/-- C2 (amended): for a matched row with the monitored attribute null, the
perturbation step is not skipped: the zero datum is perturbed and written
back into the values slot at the monitored position, so the slot holds
exactly the delta rand() % 11 + (-5); the null flag array, the origin oid and
every other values entry are unchanged, and the processed counter still
increments, so the consumer-visible attribute remains null. -/
theorem c2_null_attribute_slot_still_written (cfg : Config) (r : Nat)
    (slot : Row) (proc : Nat)
    (hmatch : slot.tableOid = cfg.relation_oid)
    (hcol : 1 ≤ cfg.col_no) (hlen : cfg.col_no ≤ slot.values.length)
    (hnull : slot.isnull.getD (cfg.col_no - 1) false = true)
    (hzero : slot.values.getD (cfg.col_no - 1) 0 = 0) :
    (tamperStep cfg CmdType.select r slot proc).outSlot.isnull = slot.isnull
    ∧ (tamperStep cfg CmdType.select r slot proc).outSlot.tableOid = slot.tableOid
    ∧ (tamperStep cfg CmdType.select r slot proc).outSlot.values.getD
        (cfg.col_no - 1) 0 = (r : Int) % 11 + (-5)
    ∧ (∀ j, j ≠ cfg.col_no - 1 →
        (tamperStep cfg CmdType.select r slot proc).outSlot.values.getD j 0
          = slot.values.getD j 0)
    ∧ (tamperStep cfg CmdType.select r slot proc).outProc = proc + 1 := by
  have hstep : tamperStep cfg CmdType.select r slot proc =
      { outSlot := selectTamper cfg r slot, outProc := proc + 1,
        usedRand := true } := by
    simp [tamperStep, hmatch]
  have hd := delta_bounds r
  have hz32 : toInt32 0 = 0 := by decide
  have hidx : cfg.col_no - 1 < slot.values.length := by omega
  have hwrite : toInt32 (toInt32 (slot.values.getD (cfg.col_no - 1) 0)
      + ((r : Int) % 11 + (-5))) = (r : Int) % 11 + (-5) := by
    rw [hzero, hz32, zero_add]
    exact toInt32_eq_self _ (by linarith [hd.1]) (by linarith [hd.2])
  rw [hstep]
  refine ⟨rfl, rfl, ?_, ?_, rfl⟩
  · show (selectTamper cfg r slot).values.getD (cfg.col_no - 1) 0 = _
    simp only [selectTamper]
    rw [getD_set_self _ _ _ hidx, hwrite]
  · intro j hj
    show (selectTamper cfg r slot).values.getD j 0 = _
    simp only [selectTamper]
    rw [getD_set_other _ _ _ _ hj]

/-- C2 witness: at relation oid 17, column 1, the null row with values [0]
and isnull [true] and rand value 6 ends up with 1 written into the values
slot while the null flag stays set. -/
theorem c2_null_attribute_slot_still_written_witness :
    (tamperStep ⟨17, 1⟩ CmdType.select 6 ⟨17, [0], [true]⟩ 0).outSlot.values.getD 0 0
      = ((6 : Nat) : Int) % 11 + (-5)
    ∧ (tamperStep ⟨17, 1⟩ CmdType.select 6 ⟨17, [0], [true]⟩ 0).outSlot.isnull
      = [true] := by
  have h := c2_null_attribute_slot_still_written ⟨17, 1⟩ 6 ⟨17, [0], [true]⟩ 0
    rfl (by decide) (by decide) (by decide) (by decide)
  exact ⟨h.2.2.1, h.1⟩

/-- C3 counterexample: a run that terminates by ordinary producer exhaustion
with the backward flag clear makes two ExecShutdownNode calls (one inside the
loop at TupIsNull, one after the loop), not exactly one. -/
theorem c3_counterexample_double_release :
    (ExecutePlan ⟨17, 1⟩ false CmdType.select true 0 none (fun _ => true)
      (fun _ => 0) 0 [⟨42, [7], [false]⟩]).exitReason = ExitReason.exhausted
    ∧ (ExecutePlan ⟨17, 1⟩ false CmdType.select true 0 none (fun _ => true)
      (fun _ => 0) 0 [⟨42, [7], [false]⟩]).shutdowns = 2
    ∧ (ExecutePlan ⟨17, 1⟩ false CmdType.select true 0 none (fun _ => true)
      (fun _ => 0) 0 [⟨42, [7], [false]⟩]).shutdowns ≠ 1 := by
  refine ⟨by decide, by decide, by decide⟩

/-- C3 (amended): the number of ExecShutdownNode calls is determined by the
exit path and the backward flag: the inner call fires exactly on producer
exhaustion and the post-loop call fires exactly when the backward flag is
clear — so exhaustion with the flag clear releases twice, consumer decline
and quota termination release once with the flag clear, and with the flag
set only the exhaustion path releases (once). -/
theorem c3_shutdown_count (cfg : Config) (backwardFlag : Bool)
    (operation : CmdType) (sendTuples : Bool) (numberTuples : Nat)
    (junkFilter : Option (Row → Row)) (receiveSlot : Row → Bool)
    (rands : Nat → Nat) (proc0 : Nat) (rows : List Row) :
    (ExecutePlan cfg backwardFlag operation sendTuples numberTuples junkFilter
        receiveSlot rands proc0 rows).shutdowns =
      (if (ExecutePlan cfg backwardFlag operation sendTuples numberTuples
          junkFilter receiveSlot rands proc0 rows).exitReason
          = ExitReason.exhausted then 1 else 0)
        + (if backwardFlag then 0 else 1) := by
  simp only [ExecutePlan]
  rw [execLoop_innerShutdowns]

/-- C4 counterexample: with a previously installed hook present whose
invocation would be observable, running the sentinel hook produces a result
that is identical to the run with a different saved hook and whose
collaborator-call trace contains no delegation event, so the saved hook was
never invoked, let alone first. -/
theorem c4_counterexample_no_delegation :
    sentinel_ExecutorRun ⟨17, 1⟩
        (some (fun _ _ _ _ =>
          Except.ok ⟨[HookEvent.prevHookDelegate], [], 0, 0⟩))
        ⟨false, false, CmdType.select, false, true, none,
          [⟨42, [7], [false]⟩], fun _ => true⟩
        ScanDirection.forwardScan 0 (fun _ => 0)
      = sentinel_ExecutorRun ⟨17, 1⟩
        (some (fun _ _ _ _ => Except.error "other"))
        ⟨false, false, CmdType.select, false, true, none,
          [⟨42, [7], [false]⟩], fun _ => true⟩
        ScanDirection.forwardScan 0 (fun _ => 0)
    ∧ HookEvent.prevHookDelegate ∉ hookEvents (sentinel_ExecutorRun ⟨17, 1⟩
        (some (fun _ _ _ _ =>
          Except.ok ⟨[HookEvent.prevHookDelegate], [], 0, 0⟩))
        ⟨false, false, CmdType.select, false, true, none,
          [⟨42, [7], [false]⟩], fun _ => true⟩
        ScanDirection.forwardScan 0 (fun _ => 0)) := by
  constructor
  · rfl
  · decide

/-- C4 (amended): module initialization saves the previously installed hook
and installs the sentinel hook, and module teardown restores the saved hook
exactly; but when the sentinel hook runs a statement it never delegates to
the saved hook: its behavior is independent of whatever hook was previously
installed and its collaborator-call trace never contains a delegation
event. -/
theorem c4_hook_saves_restores_never_delegates :
    (∀ (cfg : Config) (p q : Option ExecutorRunHook) (qd : QueryDesc)
        (dir : ScanDirection) (count : Nat) (rands : Nat → Nat),
      sentinel_ExecutorRun cfg p qd dir count rands
        = sentinel_ExecutorRun cfg q qd dir count rands)
    ∧ (∀ (cfg : Config) (p : Option ExecutorRunHook) (qd : QueryDesc)
        (dir : ScanDirection) (count : Nat) (rands : Nat → Nat),
      HookEvent.prevHookDelegate ∉
        hookEvents (sentinel_ExecutorRun cfg p qd dir count rands))
    ∧ (∀ (cfg : Config) (p : Option ExecutorRunHook),
      (PG_init_hooks p (sentinel_ExecutorRun cfg p)).1
          = sentinel_ExecutorRun cfg p
        ∧ PG_fini_hooks (PG_init_hooks p (sentinel_ExecutorRun cfg p)).2 = p) := by
  refine ⟨fun cfg p q qd dir count rands => rfl, ?_,
    fun cfg p => ⟨rfl, rfl⟩⟩
  intro cfg p qd dir count rands
  by_cases h : qd.explainOnly
  · simp [sentinel_ExecutorRun, h, hookEvents]
  · simp only [sentinel_ExecutorRun, h, Bool.false_eq_true, if_false, hookEvents]
    simp only [List.mem_append]
    split_ifs <;> simp

/-- C5 counterexample: with monitored_relation_id left at its disabled
default 0 (and column position 1), a row whose origin-relation identifier is
0 is still matched and perturbed, so the Tamper Loop is not a pure
pass-through. -/
theorem c5_counterexample_default_oid_still_tampers :
    (ExecutePlan ⟨0, 1⟩ false CmdType.select true 0 none (fun _ => true)
      (fun _ => 6) 0 [⟨0, [100], [false]⟩]).sent = [⟨0, [101], [false]⟩]
    ∧ (ExecutePlan ⟨0, 1⟩ false CmdType.select true 0 none (fun _ => true)
      (fun _ => 6) 0 [⟨0, [100], [false]⟩]).sent ≠ [⟨0, [100], [false]⟩] := by
  constructor
  · decide
  · decide

/-- C5 (amended): no validation ties the two settings together; tampering
fires purely on equality of a rows origin-relation identifier with
relation_oid, so the defaults do not by themselves deactivate it (a row with
origin id 0 is tampered under the default relation_oid 0).  The loop is a
pure pass-through exactly for inputs in which no row matches relation_oid:
such a SELECT with no quota and an accepting consumer forwards every row
unchanged, counts each one, and ends by exhaustion without consuming any
pseudorandom value. -/
theorem c5_passthrough_requires_nonmatching_rows (cfg : Config)
    (backwardFlag : Bool) (receiveSlot : Row → Bool) (rands : Nat → Nat)
    (proc0 : Nat) (rows : List Row)
    (hrecv : ∀ row, receiveSlot row = true)
    (h : ∀ row ∈ rows, row.tableOid ≠ cfg.relation_oid) :
    ExecutePlan cfg backwardFlag CmdType.select true 0 none receiveSlot rands
        proc0 rows =
      { sent := rows, processed := proc0 + rows.length,
        shutdowns := 1 + (if backwardFlag then 0 else 1),
        exitReason := ExitReason.exhausted, nextRand := 1 } := by
  simp only [ExecutePlan]
  rw [execLoop_passthrough cfg receiveSlot rands hrecv rows 1 0 proc0 h]

/-- C5 witness: a single row of relation 42 under configuration (17, 1)
passes through unchanged with the counter at 1 and two shutdown calls. -/
theorem c5_passthrough_requires_nonmatching_rows_witness :
    ExecutePlan ⟨17, 1⟩ false CmdType.select true 0 none (fun _ => true)
        (fun _ => 0) 0 [⟨42, [7], [false]⟩] =
      { sent := [⟨42, [7], [false]⟩], processed := 1, shutdowns := 2,
        exitReason := ExitReason.exhausted, nextRand := 1 } :=
  c5_passthrough_requires_nonmatching_rows ⟨17, 1⟩ false (fun _ => true)
    (fun _ => 0) 0 [⟨42, [7], [false]⟩] (fun _ => rfl)
    (by intro row hrow
        simp only [List.mem_singleton] at hrow
        subst hrow
        decide)

/-- C6 counterexample: at the int32 upper boundary the claim fails in exact
integer arithmetic: original value 2147483647 with delta 1 wraps to
-2147483648, a difference far outside [-5, 5]. -/
theorem c6_counterexample_int32_wraparound :
    (ExecutePlan ⟨17, 1⟩ false CmdType.select true 0 none (fun _ => true)
      (fun _ => 6) 0 [⟨17, [2147483647], [false]⟩]).sent
      = [⟨17, [-2147483648], [false]⟩]
    ∧ ¬ |(-2147483648 : Int) - 2147483647| ≤ 5 := by
  constructor
  · decide
  · decide

/-- C6 (amended): for a matched row whose stored monitored value is a valid
int32 and whose perturbed value does not overflow int32, the emitted value is
exactly the original plus the delta rand() % 11 + (-5), and its difference
from the original lies in [-5, 5]; at the int32 boundary the stored value
instead wraps modulo 2^32. -/
theorem c6_bounded_delta_no_overflow (cfg : Config) (r : Nat) (slot : Row)
    (v : Int)
    (hcol : 1 ≤ cfg.col_no) (hlen : cfg.col_no ≤ slot.values.length)
    (hnull : slot.isnull.getD (cfg.col_no - 1) true = false)
    (hv : slot.values.getD (cfg.col_no - 1) 0 = v)
    (hlo : -2147483648 ≤ v) (hhi : v < 2147483648)
    (hlo2 : -2147483648 ≤ v + ((r : Int) % 11 + (-5)))
    (hhi2 : v + ((r : Int) % 11 + (-5)) < 2147483648) :
    (selectTamper cfg r slot).values.getD (cfg.col_no - 1) 0
      = v + ((r : Int) % 11 + (-5))
    ∧ |(selectTamper cfg r slot).values.getD (cfg.col_no - 1) 0 - v| ≤ 5 := by
  have hidx : cfg.col_no - 1 < slot.values.length := by omega
  have hval : (selectTamper cfg r slot).values.getD (cfg.col_no - 1) 0
      = v + ((r : Int) % 11 + (-5)) := by
    simp only [selectTamper]
    rw [getD_set_self _ _ _ hidx, hv, toInt32_eq_self v hlo hhi,
      toInt32_eq_self _ hlo2 hhi2]
  have hd := delta_bounds r
  refine ⟨hval, ?_⟩
  rw [hval, abs_le]
  constructor <;> [linarith [hd.1]; linarith [hd.2]]

/-- C6 witness: original 100 at relation 17, column 1, rand value 6 yields
101, a delta of 1. -/
theorem c6_bounded_delta_no_overflow_witness :
    (selectTamper ⟨17, 1⟩ 6 ⟨17, [100], [false]⟩).values.getD 0 0
      = 100 + (((6 : Nat) : Int) % 11 + (-5))
    ∧ |(selectTamper ⟨17, 1⟩ 6 ⟨17, [100], [false]⟩).values.getD 0 0 - 100| ≤ 5 :=
  c6_bounded_delta_no_overflow ⟨17, 1⟩ 6 ⟨17, [100], [false]⟩ 100
    (by decide) (by decide) (by decide) (by decide) (by decide) (by decide)
    (by decide) (by decide)

/-- C7 (confirmed): in a SELECT, a row whose origin-relation identifier
differs from relation_oid passes the tamper block with its attribute values
bit-for-bit unchanged, the processed-row counter still increments, and no
pseudorandom value is consumed — so the result is literally the same for
every pseudorandom value r, making such rows identical across runs with
different seeds. -/
theorem c7_nonmatching_row_unchanged (cfg : Config) (r : Nat) (slot : Row)
    (proc : Nat) (h : slot.tableOid ≠ cfg.relation_oid) :
    tamperStep cfg CmdType.select r slot proc =
      { outSlot := slot, outProc := proc + 1, usedRand := false } := by
  simp [tamperStep, h]

/-- C7 witness: a relation 42 row under configuration (17, 1) is unchanged
with the counter moving from 5 to 6, for the arbitrary rand value 99. -/
theorem c7_nonmatching_row_unchanged_witness :
    tamperStep ⟨17, 1⟩ CmdType.select 99 ⟨42, [7], [false]⟩ 5 =
      { outSlot := ⟨42, [7], [false]⟩, outProc := 6, usedRand := false } :=
  c7_nonmatching_row_unchanged ⟨17, 1⟩ 99 ⟨42, [7], [false]⟩ 5 (by decide)

/-- C8 (confirmed): with a nonzero quota, an always-accepting consumer and a
producer holding at least as many rows as the quota, exactly quota many rows
are passed to the consumer and the loop terminates through the quota branch
(a normal exit, not an error). -/
theorem c8_quota_exact (cfg : Config) (backwardFlag : Bool)
    (operation : CmdType) (numberTuples : Nat)
    (junkFilter : Option (Row → Row)) (receiveSlot : Row → Bool)
    (rands : Nat → Nat) (proc0 : Nat) (rows : List Row)
    (hq : numberTuples ≠ 0) (hrecv : ∀ row, receiveSlot row = true)
    (hlen : numberTuples ≤ rows.length) :
    (ExecutePlan cfg backwardFlag operation true numberTuples junkFilter
        receiveSlot rands proc0 rows).sent.length = numberTuples
    ∧ (ExecutePlan cfg backwardFlag operation true numberTuples junkFilter
        receiveSlot rands proc0 rows).exitReason = ExitReason.quotaReached := by
  simp only [ExecutePlan]
  have h := execLoop_quota cfg operation numberTuples junkFilter receiveSlot
    rands hq hrecv rows 1 0 proc0 (by omega) (by simpa using hlen)
  simpa using h

/-- C8 witness: quota 2 against three available rows forwards exactly two
rows and exits through the quota branch. -/
theorem c8_quota_exact_witness :
    (ExecutePlan ⟨17, 1⟩ false CmdType.select true 2 none (fun _ => true)
        (fun _ => 0) 0
        [⟨42, [1], [false]⟩, ⟨42, [2], [false]⟩, ⟨42, [3], [false]⟩]).sent.length
      = 2
    ∧ (ExecutePlan ⟨17, 1⟩ false CmdType.select true 2 none (fun _ => true)
        (fun _ => 0) 0
        [⟨42, [1], [false]⟩, ⟨42, [2], [false]⟩, ⟨42, [3], [false]⟩]).exitReason
      = ExitReason.quotaReached :=
  c8_quota_exact ⟨17, 1⟩ false CmdType.select 2 none (fun _ => true)
    (fun _ => 0) 0 [⟨42, [1], [false]⟩, ⟨42, [2], [false]⟩, ⟨42, [3], [false]⟩]
    (by decide) (fun _ => rfl) (by decide)

/-- C9 (confirmed): invoked on an explain-only descriptor, the hook stops at
its assertion before any other step: the invocation is rejected, no row is
sent and no collaborator call happens, so tampering is unreachable when the
flag is set. -/
theorem c9_explain_only_rejected (cfg : Config)
    (prev : Option ExecutorRunHook) (qd : QueryDesc) (dir : ScanDirection)
    (count : Nat) (rands : Nat → Nat) (h : qd.explainOnly = true) :
    sentinel_ExecutorRun cfg prev qd dir count rands
      = Except.error "EXEC_FLAG_EXPLAIN_ONLY set"
    ∧ hookSent (sentinel_ExecutorRun cfg prev qd dir count rands) = []
    ∧ hookEvents (sentinel_ExecutorRun cfg prev qd dir count rands) = [] := by
  have he : sentinel_ExecutorRun cfg prev qd dir count rands
      = Except.error "EXEC_FLAG_EXPLAIN_ONLY set" := by
    simp [sentinel_ExecutorRun, h]
  exact ⟨he, by rw [he]; rfl, by rw [he]; rfl⟩

/-- C9 witness: a concrete explain-only descriptor is rejected. -/
theorem c9_explain_only_rejected_witness :
    sentinel_ExecutorRun ⟨17, 1⟩ none
        ⟨true, false, CmdType.select, false, true, none,
          [⟨17, [5], [false]⟩], fun _ => true⟩
        ScanDirection.forwardScan 0 (fun _ => 0)
      = Except.error "EXEC_FLAG_EXPLAIN_ONLY set" :=
  (c9_explain_only_rejected ⟨17, 1⟩ none
    ⟨true, false, CmdType.select, false, true, none,
      [⟨17, [5], [false]⟩], fun _ => true⟩
    ScanDirection.forwardScan 0 (fun _ => 0) rfl).1

/-- C10 (confirmed): with scan direction NoMovement (and the explain-only
flag clear, as the assertion demands), the plan is never run: no row is
pulled, tampered or forwarded, the processed counter is 0 and no node
shutdown happens, yet for a row-emitting operation the consumer startup and
shutdown calls still fire and instrumentation still brackets the skipped
run. -/
theorem c10_no_movement_skips_plan (cfg : Config)
    (prev : Option ExecutorRunHook) (qd : QueryDesc) (count : Nat)
    (rands : Nat → Nat) (h : qd.explainOnly = false) :
    sentinel_ExecutorRun cfg prev qd ScanDirection.noMovement count rands =
      Except.ok
        { events :=
            (if qd.hasTotaltime then [HookEvent.instrStart] else [])
              ++ (if (qd.operation == CmdType.select) || qd.hasReturning
                  then [HookEvent.consumerStartup] else [])
              ++ (if (qd.operation == CmdType.select) || qd.hasReturning
                  then [HookEvent.consumerShutdown] else [])
              ++ (if qd.hasTotaltime then [HookEvent.instrStop] else []),
          sent := [], es_processed := 0, shutdowns := 0 } := by
  simp [sentinel_ExecutorRun, h]

/-- C10 witness: a SELECT descriptor with instrumentation attached, run with
NoMovement, yields exactly the four bracketing collaborator calls, no sent
rows, a zero counter and no shutdowns, despite a nonempty plan stream. -/
theorem c10_no_movement_skips_plan_witness :
    sentinel_ExecutorRun ⟨17, 1⟩ none
        ⟨false, false, CmdType.select, false, true, none,
          [⟨17, [5], [false]⟩], fun _ => true⟩
        ScanDirection.noMovement 5 (fun _ => 0) =
      Except.ok
        { events := [HookEvent.instrStart, HookEvent.consumerStartup,
            HookEvent.consumerShutdown, HookEvent.instrStop],
          sent := [], es_processed := 0, shutdowns := 0 } :=
  c10_no_movement_skips_plan ⟨17, 1⟩ none
    ⟨false, false, CmdType.select, false, true, none,
      [⟨17, [5], [false]⟩], fun _ => true⟩ 5 (fun _ => 0) rfl

end PgSentinel
